import Mathlib

/-!
Shallow embedding of the progressive bracket allocation algorithm of the
tax-calculator repository (`calculateTaxes` in `src/src/App.tsx`, lines
137-178), together with theorems settling the specification claims.

Numbers are modelled as rationals: the arithmetic of the algorithm on the
inputs appearing in the spec and tests (integer bounds, two-decimal
rates) is exact in IEEE doubles for the concrete scenarios checked here,
and the spec states its properties over exact arithmetic.  The JavaScript
`Infinity` upper edge (`bracket.max ?? Infinity`) is modelled by the
`Option` in `TaxBracket.max`: `Math.min (income - min) (Infinity - min)`
collapses to `income - min`, which is what the `none` branch computes.
`Array.prototype.sort` is a stable sort; `List.insertionSort` with the
same key comparison is also stable, hence produces the same list.
-/

/-- Mirrors `interface TaxBracket { min: number; max?: number; rate: number }`. -/
structure TaxBracket where
  min : ℚ
  max : Option ℚ
  rate : ℚ
deriving DecidableEq, Repr

/-- Mirrors `interface TaxCalculation { bracket; taxableAmount; taxPaid }`. -/
structure TaxCalculation where
  bracket : TaxBracket
  taxableAmount : ℚ
  taxPaid : ℚ
deriving DecidableEq, Repr

/-- The observable output of one invocation of `calculateTaxes`: the returned
allocation list plus the two values stored via `setTotalTax` /
`setEffectiveRate` (App.tsx lines 167-169). -/
structure CalculationResult where
  allocations : List TaxCalculation
  totalTax : ℚ
  effectiveRate : ℚ
deriving DecidableEq, Repr

/-- The comparator of line 142, `(a, b) => a.min - b.min`, as an order on
brackets: `a` sorts no later than `b` iff `a.min ≤ b.min`. -/
def bracketLE (a b : TaxBracket) : Prop := a.min ≤ b.min

instance : DecidableRel bracketLE :=
  fun a b => inferInstanceAs (Decidable (a.min ≤ b.min))

instance : IsTotal TaxBracket bracketLE := ⟨fun a b => le_total a.min b.min⟩

instance : IsTrans TaxBracket bracketLE := ⟨fun _ _ _ h h2 => le_trans h h2⟩

/-- Line 142: `[...brackets].sort((a, b) => a.min - b.min)`.  The JavaScript
sort is stable, and so is `insertionSort`; with the same key they agree. -/
def sortBrackets (l : List TaxBracket) : List TaxBracket :=
  List.insertionSort bracketLE l

/-- Lines 145-147: `const max = bracket.max ?? Infinity;
const taxableInBand = Math.max(0, Math.min(income - min, max - min));`. -/
def taxableInBand (income : ℚ) (b : TaxBracket) : ℚ :=
  match b.max with
  | some m => max 0 (min (income - b.min) (m - b.min))
  | none => max 0 (income - b.min)

/-- Lines 149-156: when the clamped amount is strictly positive, an
allocation carrying the original bracket, the clamped amount, and
`taxableInBand * bracket.rate` is pushed; otherwise nothing is emitted. -/
def bandAllocation (income : ℚ) (b : TaxBracket) : Option TaxCalculation :=
  if 0 < taxableInBand income b then
    some ⟨b, taxableInBand income b, taxableInBand income b * b.rate⟩
  else none

/-- Lines 137-178, `calculateTaxes`: sort a copy of the brackets, walk them in
order emitting positive allocations, accumulate the tax paid, and store
`(totalTaxPaid / income) * 100` as the effective rate (line 167 — note the
multiplication by 100 happens here, inside the calculation). -/
def calculateTaxes (income : ℚ) (brackets : List TaxBracket) : CalculationResult :=
  let sorted := sortBrackets brackets
  let calcs := sorted.filterMap (bandAllocation income)
  let totalTaxPaid := (calcs.map (fun c => c.taxPaid)).sum
  { allocations := calcs
    totalTax := totalTaxPaid
    effectiveRate := totalTaxPaid / income * 100 }

/-- State-passing view of the same call, keeping track of the array of the caller.
Line 142 spreads `brackets` into a fresh array and sorts that copy in place,
so the contents of the array of the caller after the call are returned unchanged
alongside the result. -/
def calculateTaxesFrame (income : ℚ) (brackets : List TaxBracket) :
    CalculationResult × List TaxBracket :=
  let copied := brackets
  let sorted := sortBrackets copied
  let calcs := sorted.filterMap (bandAllocation income)
  let totalTaxPaid := (calcs.map (fun c => c.taxPaid)).sum
  ({ allocations := calcs
     totalTax := totalTaxPaid
     effectiveRate := totalTaxPaid / income * 100 }, brackets)

/-- Contiguity of a bracket chain starting at a given lower edge: each band
starts where the previous one ended, a finite band is non-degenerate, and an
open-ended band closes the chain (spec §3 invariant). -/
def contiguousFrom : ℚ → List TaxBracket → Bool
  | _, [] => true
  | lo, b :: rest =>
    decide (b.min = lo) &&
      (match b.max with
       | some m => decide (lo ≤ m) && contiguousFrom m rest
       | none => rest.isEmpty)

/-- The highest finite bound of a bracket chain starting at a given lower
edge, `none` when the chain ends in an open-ended band. -/
def finalBound : ℚ → List TaxBracket → Option ℚ
  | lo, [] => some lo
  | _, b :: rest =>
    match b.max with
    | some m => finalBound m rest
    | none => none

/-- The demonstration bracket set used by the scenarios of the spec and by
`mockTaxBrackets`, the test fixture of the repository. -/
def demoBrackets : List TaxBracket :=
  [⟨0, some 50000, 15 / 100⟩, ⟨50000, some 100000, 25 / 100⟩, ⟨100000, none, 35 / 100⟩]

/-- Two brackets sharing the same `min` (tie for the sort), with different
rates, used to exhibit order dependence of the allocation sequence. -/
def ceA : TaxBracket := ⟨0, some 100, 1 / 10⟩

/-- Second bracket of the tie pair; see `ceA`. -/
def ceB : TaxBracket := ⟨0, some 100, 1 / 5⟩

lemma taxableInBand_nonneg (income : ℚ) (b : TaxBracket) :
    0 ≤ taxableInBand income b := by
  unfold taxableInBand
  cases b.max <;> exact le_max_left _ _

lemma taxableInBand_eq_zero_of_le (income : ℚ) (b : TaxBracket)
    (h : income ≤ b.min) : taxableInBand income b = 0 := by
  unfold taxableInBand
  cases hm : b.max with
  | none => simp only [max_eq_left_iff]; linarith
  | some m =>
    have : min (income - b.min) (m - b.min) ≤ 0 :=
      le_trans (min_le_left _ _) (by linarith)
    simp only [max_eq_left_iff]
    exact this

lemma bandAllocation_eq_some (income : ℚ) (b : TaxBracket) (a : TaxCalculation) :
    bandAllocation income b = some a ↔
      0 < taxableInBand income b ∧
        a = ⟨b, taxableInBand income b, taxableInBand income b * b.rate⟩ := by
  unfold bandAllocation
  split_ifs with h
  · simp [h, eq_comm]
  · simp [h]

lemma sum_taxable_filterMap (income : ℚ) (l : List TaxBracket) :
    ((l.filterMap (bandAllocation income)).map (fun a => a.taxableAmount)).sum
      = (l.map (taxableInBand income)).sum := by
  induction l with
  | nil => rfl
  | cons b rest ih =>
    by_cases h : 0 < taxableInBand income b
    · simp [List.filterMap_cons, bandAllocation, h, ih]
    · have hz : taxableInBand income b = 0 :=
        le_antisymm (not_lt.mp h) (taxableInBand_nonneg income b)
      simp [List.filterMap_cons, bandAllocation, h, ih, hz]

lemma sum_taxPaid_filterMap (income : ℚ) (l : List TaxBracket) :
    ((l.filterMap (bandAllocation income)).map (fun a => a.taxPaid)).sum
      = (l.map (fun b => taxableInBand income b * b.rate)).sum := by
  induction l with
  | nil => rfl
  | cons b rest ih =>
    by_cases h : 0 < taxableInBand income b
    · simp [List.filterMap_cons, bandAllocation, h, ih]
    · have hz : taxableInBand income b = 0 :=
        le_antisymm (not_lt.mp h) (taxableInBand_nonneg income b)
      simp [List.filterMap_cons, bandAllocation, h, ih, hz]

lemma mem_bracket_map_filterMap (income : ℚ) (l : List TaxBracket) (b : TaxBracket) :
    b ∈ (l.filterMap (bandAllocation income)).map (fun a => a.bracket) ↔
      b ∈ l ∧ 0 < taxableInBand income b := by
  constructor
  · intro h
    rcases List.mem_map.mp h with ⟨a, ha, hab⟩
    rcases List.mem_filterMap.mp ha with ⟨b2, hb2, hsome⟩
    rcases (bandAllocation_eq_some income b2 a).mp hsome with ⟨hpos, haeq⟩
    have : a.bracket = b2 := by rw [haeq]
    rw [← hab, this]
    exact ⟨hb2, hpos⟩
  · rintro ⟨hmem, hpos⟩
    refine List.mem_map.mpr ⟨⟨b, taxableInBand income b, taxableInBand income b * b.rate⟩, ?_, rfl⟩
    exact List.mem_filterMap.mpr ⟨b, hmem, (bandAllocation_eq_some income b _).mpr ⟨hpos, rfl⟩⟩

lemma mem_allocations_shape (income : ℚ) (l : List TaxBracket) (a : TaxCalculation)
    (h : a ∈ l.filterMap (bandAllocation income)) :
    a.taxableAmount = taxableInBand income a.bracket ∧
      0 < a.taxableAmount ∧ a.taxPaid = a.taxableAmount * a.bracket.rate := by
  rcases List.mem_filterMap.mp h with ⟨b, _, hsome⟩
  rcases (bandAllocation_eq_some income b a).mp hsome with ⟨hpos, haeq⟩
  subst haeq
  exact ⟨rfl, hpos, rfl⟩

lemma clamp_closed (income lo m : ℚ) (h : lo ≤ m) :
    max 0 (min (income - lo) (m - lo)) = min income m - min income lo := by
  simp only [min_def, max_def]
  split_ifs <;> linarith

lemma clamp_open (income lo : ℚ) :
    max 0 (income - lo) = income - min income lo := by
  simp only [min_def, max_def]
  split_ifs <;> linarith

lemma chain_sum (income : ℚ) :
    ∀ (l : List TaxBracket) (lo : ℚ), contiguousFrom lo l = true →
      (l.map (taxableInBand income)).sum
        = (match finalBound lo l with
           | some hi => min income hi
           | none => income) - min income lo := by
  intro l
  induction l with
  | nil =>
    intro lo _
    simp [finalBound]
  | cons b rest ih =>
    intro lo hc
    unfold contiguousFrom at hc
    rw [Bool.and_eq_true, decide_eq_true_eq] at hc
    obtain ⟨hmin, hc⟩ := hc
    cases hm : b.max with
    | some m =>
      rw [hm, Bool.and_eq_true, decide_eq_true_eq] at hc
      obtain ⟨hlom, hrest⟩ := hc
      have hband : taxableInBand income b = min income m - min income lo := by
        unfold taxableInBand
        rw [hm, hmin]
        exact clamp_closed income lo m hlom
      have htail := ih m hrest
      simp only [List.map_cons, List.sum_cons, hband, htail, finalBound, hm]
      cases finalBound m rest <;> dsimp only <;> ring
    | none =>
      rw [hm] at hc
      have hrest : rest = [] := by
        cases rest with
        | nil => rfl
        | cons x xs => simp [List.isEmpty] at hc
      subst hrest
      have hband : taxableInBand income b = income - min income lo := by
        unfold taxableInBand
        rw [hm, hmin]
        exact clamp_open income lo
      simp [hband, finalBound, hm]

lemma taxableInBand_le_width (income : ℚ) (b : TaxBracket) (m : ℚ)
    (hm : b.max = some m) (hpos : 0 < taxableInBand income b) :
    taxableInBand income b ≤ m - b.min := by
  unfold taxableInBand at hpos ⊢
  rw [hm] at hpos ⊢
  have hx : 0 < min (income - b.min) (m - b.min) := by
    rcases lt_max_iff.mp hpos with h | h
    · exact absurd h (lt_irrefl 0)
    · exact h
  have h1 : min (income - b.min) (m - b.min) ≤ m - b.min := min_le_right _ _
  exact max_le (le_trans (le_of_lt hx) h1) h1

lemma taxableInBand_mono (b : TaxBracket) (i1 i2 : ℚ) (h : i1 ≤ i2) :
    taxableInBand i1 b ≤ taxableInBand i2 b := by
  unfold taxableInBand
  cases b.max with
  | some m => exact max_le_max le_rfl (min_le_min (by linarith) le_rfl)
  | none => exact max_le_max le_rfl (by linarith)

lemma totalTax_eq (income : ℚ) (l : List TaxBracket) :
    (calculateTaxes income l).totalTax
      = ((sortBrackets l).map (fun b => taxableInBand income b * b.rate)).sum :=
  sum_taxPaid_filterMap income (sortBrackets l)

lemma pairwise_lt_of_sorted_ne :
    ∀ l : List TaxBracket, l.Pairwise bracketLE →
      l.Pairwise (fun a b => a.min ≠ b.min) →
      l.Pairwise (fun a b => a.min < b.min) := by
  intro l
  induction l with
  | nil => intro _ _; exact List.Pairwise.nil
  | cons x xs ih =>
    intro hs hd
    rcases List.pairwise_cons.mp hs with ⟨hs1, hs2⟩
    rcases List.pairwise_cons.mp hd with ⟨hd1, hd2⟩
    exact List.pairwise_cons.mpr
      ⟨fun b hb => lt_of_le_of_ne (hs1 b hb) (hd1 b hb), ih hs2 hd2⟩

lemma sortBrackets_eq_of_perm (l1 l2 : List TaxBracket)
    (hp : List.Perm l1 l2)
    (hd : l1.Pairwise (fun a b => a.min ≠ b.min)) :
    sortBrackets l1 = sortBrackets l2 := by
  have p1 : List.Perm (sortBrackets l1) l1 := List.perm_insertionSort bracketLE l1
  have p2 : List.Perm (sortBrackets l2) l2 := List.perm_insertionSort bracketLE l2
  have p : List.Perm (sortBrackets l1) (sortBrackets l2) :=
    p1.trans (hp.trans p2.symm)
  have d1 : (sortBrackets l1).Pairwise (fun a b => a.min ≠ b.min) :=
    (p1.pairwise_iff (fun h => Ne.symm h)).mpr hd
  have d2 : (sortBrackets l2).Pairwise (fun a b => a.min ≠ b.min) :=
    (p2.pairwise_iff (fun h => Ne.symm h)).mpr
      ((hp.pairwise_iff (fun h => Ne.symm h)).mp hd)
  have s1 : (sortBrackets l1).Pairwise bracketLE :=
    List.sorted_insertionSort bracketLE l1
  have s2 : (sortBrackets l2).Pairwise bracketLE :=
    List.sorted_insertionSort bracketLE l2
  haveI : IsAntisymm TaxBracket (fun a b => a.min < b.min) :=
    ⟨fun a b h h2 => absurd (h.trans h2) (lt_irrefl _)⟩
  exact List.eq_of_perm_of_sorted p
    (pairwise_lt_of_sorted_ne _ s1 d1) (pairwise_lt_of_sorted_ne _ s2 d2)

/-- Claim C1 counterexample: at income 75000 with the demo brackets the
stored effective rate is not the ratio 13750 / 75000 claimed by the spec —
the code has already multiplied it by 100 (App.tsx line 167). -/
theorem claim1_counterexample :
    (calculateTaxes 75000 demoBrackets).effectiveRate ≠ 13750 / 75000 := by
  norm_num [calculateTaxes, sortBrackets, demoBrackets, List.insertionSort,
    List.orderedInsert, bracketLE, bandAllocation, taxableInBand, List.filterMap_cons]

/-- Claim C1 (amended): income 75000 with brackets 0-50000 at 0.15,
50000-100000 at 0.25, open above 100000 at 0.35 yields exactly two
allocations — taxable 50000 tax 7500, then taxable 25000 tax 6250 — with
totalTax 13750 and effectiveRate (13750 / 75000) * 100 = 55/3 ≈ 18.333,
the percentage value stored by the code. -/
theorem claim1_boundary_scenario :
    calculateTaxes 75000 demoBrackets =
      ⟨[⟨⟨0, some 50000, 15 / 100⟩, 50000, 7500⟩,
        ⟨⟨50000, some 100000, 25 / 100⟩, 25000, 6250⟩],
       13750, 55 / 3⟩ := by
  norm_num [calculateTaxes, sortBrackets, demoBrackets, List.insertionSort,
    List.orderedInsert, bracketLE, bandAllocation, taxableInBand, List.filterMap_cons]

/-- Claim C2 counterexample: the stored effective rate differs from
totalTax / income at income 75000 with the demo brackets, so the
multiplication by 100 is not left to the UI. -/
theorem claim2_counterexample :
    (calculateTaxes 75000 demoBrackets).effectiveRate ≠
      (calculateTaxes 75000 demoBrackets).totalTax / 75000 := by
  norm_num [calculateTaxes, sortBrackets, demoBrackets, List.insertionSort,
    List.orderedInsert, bracketLE, bandAllocation, taxableInBand, List.filterMap_cons]

/-- Claim C2 (amended): for every positive income and bracket set, the
effective rate computed inside `calculateTaxes` equals
(totalTax / income) * 100 — the percentage scaling happens in the
calculation itself (App.tsx line 167), and whenever the tax is nonzero the
stored value genuinely differs from the plain ratio totalTax / income. -/
theorem claim2_effective_rate (income : ℚ) (l : List TaxBracket)
    (h : 0 < income) (ht : (calculateTaxes income l).totalTax ≠ 0) :
    (calculateTaxes income l).effectiveRate
        = (calculateTaxes income l).totalTax / income * 100 ∧
      (calculateTaxes income l).effectiveRate
        ≠ (calculateTaxes income l).totalTax / income := by
  refine ⟨rfl, ?_⟩
  have hx : (calculateTaxes income l).totalTax / income ≠ 0 :=
    div_ne_zero ht (ne_of_gt h)
  intro heq
  rw [show (calculateTaxes income l).effectiveRate
        = (calculateTaxes income l).totalTax / income * 100 from rfl] at heq
  apply hx
  linarith

/-- Claim C2 witness: the amended effective-rate law instantiated at income
75000 with the demo brackets. -/
theorem claim2_witness :
    (calculateTaxes 75000 demoBrackets).effectiveRate
        = (calculateTaxes 75000 demoBrackets).totalTax / 75000 * 100 ∧
      (calculateTaxes 75000 demoBrackets).effectiveRate
        ≠ (calculateTaxes 75000 demoBrackets).totalTax / 75000 :=
  claim2_effective_rate 75000 demoBrackets (by norm_num)
    (by norm_num [calculateTaxes, sortBrackets, demoBrackets, List.insertionSort,
      List.orderedInsert, bracketLE, bandAllocation, taxableInBand, List.filterMap_cons])

/-- Claim C8: with an empty bracket list, every income yields an empty
allocation sequence and zero total tax. -/
theorem claim8_empty_brackets (income : ℚ) :
    (calculateTaxes income []).allocations = [] ∧
      (calculateTaxes income []).totalTax = 0 :=
  ⟨rfl, rfl⟩

/-- Claim C9: the brackets array of the caller is not mutated — the source sorts
a spread copy, so in the state-passing view of the call the array contents
handed back to the caller are exactly the input, while the computed result
agrees with `calculateTaxes`. -/
theorem claim9_no_mutation (income : ℚ) (l : List TaxBracket) :
    (calculateTaxesFrame income l).2 = l ∧
      (calculateTaxesFrame income l).1 = calculateTaxes income l :=
  ⟨rfl, rfl⟩

/-- Claim C3: conservation — for nonnegative income and a bracket set that is
contiguous from 0 once sorted, the taxable amounts of the emitted allocations
sum to min(income, highest finite bound) when every band is finite, and to
the whole income when the chain ends in an open-ended band. -/
theorem claim3_conservation (income : ℚ) (l : List TaxBracket)
    (h0 : 0 ≤ income) (hc : contiguousFrom 0 (sortBrackets l) = true) :
    (((calculateTaxes income l).allocations).map (fun a => a.taxableAmount)).sum
      = match finalBound 0 (sortBrackets l) with
        | some hi => min income hi
        | none => income := by
  have hall : (calculateTaxes income l).allocations
      = (sortBrackets l).filterMap (bandAllocation income) := rfl
  rw [hall, sum_taxable_filterMap, chain_sum income (sortBrackets l) 0 hc,
    min_eq_right h0, sub_zero]

/-- Claim C3 witness: conservation at income 75000 with the demo brackets,
whose chain is open-ended, so the allocations sum to the full income. -/
theorem claim3_witness :
    (((calculateTaxes 75000 demoBrackets).allocations).map
        (fun a => a.taxableAmount)).sum = 75000 := by
  have h := claim3_conservation 75000 demoBrackets (by norm_num)
    (by norm_num [contiguousFrom, sortBrackets, demoBrackets, List.insertionSort,
      List.orderedInsert, bracketLE])
  refine h.trans ?_
  norm_num [finalBound, sortBrackets, demoBrackets, List.insertionSort,
    List.orderedInsert, bracketLE]

/-- Claim C4: monotonicity — for a fixed bracket set with nonnegative rates,
the total tax is non-decreasing in income. -/
theorem claim4_monotonicity (i1 i2 : ℚ) (l : List TaxBracket)
    (hr : ∀ b ∈ l, 0 ≤ b.rate) (h : i1 ≤ i2) :
    (calculateTaxes i1 l).totalTax ≤ (calculateTaxes i2 l).totalTax := by
  rw [totalTax_eq, totalTax_eq]
  apply List.sum_le_sum
  intro b hb
  have hbr : 0 ≤ b.rate :=
    hr b ((List.perm_insertionSort bracketLE l).mem_iff.mp hb)
  exact mul_le_mul_of_nonneg_right (taxableInBand_mono b i1 i2 h) hbr

/-- Claim C4 witness: monotonicity instantiated on the demo brackets at
incomes 50000 and 75000. -/
theorem claim4_witness :
    (calculateTaxes 50000 demoBrackets).totalTax
      ≤ (calculateTaxes 75000 demoBrackets).totalTax :=
  claim4_monotonicity 50000 75000 demoBrackets
    (by norm_num [demoBrackets]) (by norm_num)

/-- Claim C6: zero-contribution omission — a bracket value appears among the
emitted allocations exactly when it is in the input list and its clamped
taxable amount is strictly positive; no emitted allocation has zero
taxableAmount, and a bracket whose min exceeds the income never appears. -/
theorem claim6_zero_contribution (income : ℚ) (l : List TaxBracket) (b : TaxBracket) :
    (b ∈ ((calculateTaxes income l).allocations).map (fun a => a.bracket) ↔
        b ∈ l ∧ 0 < taxableInBand income b)
      ∧ (∀ a ∈ (calculateTaxes income l).allocations, 0 < a.taxableAmount)
      ∧ (income < b.min →
          b ∉ ((calculateTaxes income l).allocations).map (fun a => a.bracket)) := by
  have hall : (calculateTaxes income l).allocations
      = (sortBrackets l).filterMap (bandAllocation income) := rfl
  have hiff : b ∈ ((calculateTaxes income l).allocations).map (fun a => a.bracket) ↔
      b ∈ l ∧ 0 < taxableInBand income b := by
    rw [hall, mem_bracket_map_filterMap]
    simp only [sortBrackets, (List.perm_insertionSort bracketLE l).mem_iff]
  refine ⟨hiff, ?_, ?_⟩
  · intro a ha
    rw [hall] at ha
    exact (mem_allocations_shape income (sortBrackets l) a ha).2.1
  · intro hlt hmem
    have hz : taxableInBand income b = 0 :=
      taxableInBand_eq_zero_of_le income b (le_of_lt hlt)
    have := (hiff.mp hmem).2
    rw [hz] at this
    exact lt_irrefl 0 this

/-- Claim C6 witness: at income 75000 the open top demo bracket, whose min
100000 exceeds the income, is absent from the emitted allocations. -/
theorem claim6_witness :
    (⟨100000, none, 35 / 100⟩ : TaxBracket)
      ∉ ((calculateTaxes 75000 demoBrackets).allocations).map (fun a => a.bracket) :=
  (claim6_zero_contribution 75000 demoBrackets ⟨100000, none, 35 / 100⟩).2.2
    (by norm_num)

/-- Claim C7: degenerate-input tolerance — the calculation is total on every
bracket list (the output never has more entries than the input, whatever the
order or shape of the list), and a degenerate band whose max is below its min
contributes zero by the clamp formula and is never emitted. -/
theorem claim7_degenerate_band (income : ℚ) (l : List TaxBracket)
    (b : TaxBracket) (m : ℚ) (hb : b.max = some m) (hm : m < b.min) :
    taxableInBand income b = 0 ∧
      b ∉ ((calculateTaxes income l).allocations).map (fun a => a.bracket) ∧
      ((calculateTaxes income l).allocations).length ≤ l.length := by
  have hz : taxableInBand income b = 0 := by
    unfold taxableInBand
    rw [hb]
    have hmin : min (income - b.min) (m - b.min) ≤ 0 :=
      le_trans (min_le_right _ _) (by linarith)
    simp only [max_eq_left_iff]
    exact hmin
  have hall : (calculateTaxes income l).allocations
      = (sortBrackets l).filterMap (bandAllocation income) := rfl
  refine ⟨hz, ?_, ?_⟩
  · intro hmem
    rw [hall, mem_bracket_map_filterMap] at hmem
    rw [hz] at hmem
    exact lt_irrefl 0 hmem.2
  · rw [hall]
    calc ((sortBrackets l).filterMap (bandAllocation income)).length
        ≤ (sortBrackets l).length := List.length_filterMap_le _ _
      _ = l.length := (List.perm_insertionSort bracketLE l).length_eq

/-- Claim C7 witness: the degenerate band 10..5 contributes zero and is
omitted at income 75000, and the output is no longer than the input. -/
theorem claim7_witness :
    taxableInBand 75000 ⟨10, some 5, 1 / 2⟩ = 0 ∧
      (⟨10, some 5, 1 / 2⟩ : TaxBracket)
        ∉ ((calculateTaxes 75000 [⟨10, some 5, 1 / 2⟩]).allocations).map
            (fun a => a.bracket) ∧
      ((calculateTaxes 75000 [⟨10, some 5, 1 / 2⟩]).allocations).length
        ≤ ([⟨10, some 5, 1 / 2⟩] : List TaxBracket).length :=
  claim7_degenerate_band 75000 [⟨10, some 5, 1 / 2⟩] ⟨10, some 5, 1 / 2⟩ 5
    rfl (by norm_num)

/-- Claim C10: every emitted allocation has strictly positive taxableAmount,
taxableAmount bounded by the width of the band when the band is finite, and
taxPaid equal to taxableAmount times the rate of the bracket; moreover a bracket
whose min equals the income contributes zero and is omitted. -/
theorem claim10_allocation_invariants (income : ℚ) (l : List TaxBracket) :
    (∀ a ∈ (calculateTaxes income l).allocations,
        0 < a.taxableAmount ∧
          a.taxPaid = a.taxableAmount * a.bracket.rate ∧
          ∀ m, a.bracket.max = some m → a.taxableAmount ≤ m - a.bracket.min)
      ∧ ∀ b : TaxBracket, b.min = income →
          b ∉ ((calculateTaxes income l).allocations).map (fun a => a.bracket) := by
  have hall : (calculateTaxes income l).allocations
      = (sortBrackets l).filterMap (bandAllocation income) := rfl
  constructor
  · intro a ha
    rw [hall] at ha
    obtain ⟨hamt, hpos, hpaid⟩ := mem_allocations_shape income (sortBrackets l) a ha
    refine ⟨hpos, hpaid, ?_⟩
    intro m hm
    rw [hamt]
    rw [hamt] at hpos
    exact taxableInBand_le_width income a.bracket m hm hpos
  · intro b hbmin hmem
    rw [hall, mem_bracket_map_filterMap] at hmem
    have hz : taxableInBand income b = 0 :=
      taxableInBand_eq_zero_of_le income b (le_of_eq hbmin.symm)
    rw [hz] at hmem
    exact lt_irrefl 0 hmem.2

/-- Claim C10 witness: the first allocation at income 75000 with the demo
brackets has positive taxable amount and taxPaid equal to amount times rate. -/
theorem claim10_witness :
    (0 : ℚ) < 50000 ∧ (7500 : ℚ) = 50000 * (15 / 100) := by
  have h := (claim10_allocation_invariants 75000 demoBrackets).1
    ⟨⟨0, some 50000, 15 / 100⟩, 50000, 7500⟩
    (by norm_num [calculateTaxes, sortBrackets, demoBrackets, List.insertionSort,
      List.orderedInsert, bracketLE, bandAllocation, taxableInBand, List.filterMap_cons])
  exact ⟨h.1, h.2.1⟩

/-- Claim C5 counterexample: two brackets sharing min 0 — swapping them is a
permutation of the input, yet the stable sort preserves the tie order, so the
allocation sequences (and hence the results) differ at income 50. -/
theorem claim5_counterexample :
    List.Perm [ceA, ceB] [ceB, ceA] ∧
      calculateTaxes 50 [ceA, ceB] ≠ calculateTaxes 50 [ceB, ceA] := by
  constructor
  · exact List.Perm.swap ceB ceA []
  · norm_num [calculateTaxes, sortBrackets, List.insertionSort,
      List.orderedInsert, bracketLE, bandAllocation, taxableInBand,
      List.filterMap_cons, ceA, ceB, CalculationResult.mk.injEq,
      TaxCalculation.mk.injEq, TaxBracket.mk.injEq]

/-- Claim C5 (amended): for bracket lists in which no two brackets share the
same min, calling `calculateTaxes` on any permutation of the list yields the
same CalculationResult as on the original list; with ties on min the
allocation order follows the (stable-sorted) input order instead. -/
theorem claim5_order_independence (income : ℚ) (l1 l2 : List TaxBracket)
    (hp : List.Perm l1 l2)
    (hd : l1.Pairwise (fun a b => a.min ≠ b.min)) :
    calculateTaxes income l1 = calculateTaxes income l2 := by
  have hs := sortBrackets_eq_of_perm l1 l2 hp hd
  unfold calculateTaxes
  rw [hs]

/-- Claim C5 witness: a shuffle of the demo brackets (all mins distinct)
yields the same result at income 75000. -/
theorem claim5_witness :
    calculateTaxes 75000
        [⟨50000, some 100000, 25 / 100⟩, ⟨100000, none, 35 / 100⟩,
         ⟨0, some 50000, 15 / 100⟩]
      = calculateTaxes 75000 demoBrackets := by
  refine claim5_order_independence 75000 _ demoBrackets ?_ ?_
  · exact List.Perm.trans
      (List.Perm.cons _
        (List.Perm.swap (⟨0, some 50000, 15 / 100⟩ : TaxBracket)
          (⟨100000, none, 35 / 100⟩ : TaxBracket) []))
      (List.Perm.swap (⟨0, some 50000, 15 / 100⟩ : TaxBracket)
        (⟨50000, some 100000, 25 / 100⟩ : TaxBracket)
        ([⟨100000, none, 35 / 100⟩] : List TaxBracket))
  · norm_num [List.pairwise_cons, demoBrackets]
